import Mathlib

/-!
Shallow embedding of the turn-navigation state machine of this repository
(file `stores/TurnNavigationStore.ts`): the store state, the actions it
consumes, and its `reduce` transition function, together with the pure
decision helpers `skipWaypoint` and `distanceToRouteChange`.

Modelling conventions:
* JavaScript numbers are modelled as rationals (`ℚ`); integer-valued indices
  as `ℤ`/`ℕ`.  `Math.round` is `jsRound x = ⌊x + 1/2⌋`, which matches the
  JavaScript semantics on all inputs relevant here.
* The fields `instruction` and `pathDetails` start out as the empty object
  `{}` in the source; reading a number field of that object yields
  `undefined`.  We model the two snapshots as `Option`-typed fields where
  `none` is the empty object, and wrap the JavaScript comparisons
  (`undefined < c` is false, `undefined > c` is false, `i != undefined` is
  true, `isNaN undefined` is true) in the helpers `jslt`, `jsgt`, `jsneq`.
* The geometric helpers (`calcDist`, `getCurrentInstruction`,
  `getCurrentDetails` from `GeoMethods`) are external collaborators whose
  internals are out of scope; `reduce` is parametrised by a `GeoMethods`
  record supplying them.
* Side effects (issuing an asynchronous routing request, speaking a text,
  starting/stopping the location source) are returned as an explicit effect
  list; a thrown `Error` is `Except.error` with the thrown message.
-/

namespace TurnNav

attribute [local semireducible] Rat.add Rat.sub Rat.mul Rat.inv

/-- JavaScript `Math.round`: round half towards positive infinity. -/
def jsRound (x : ℚ) : ℤ := ⌊x + 1 / 2⌋

/-- JavaScript `Math.abs`. -/
def jsAbs (x : ℚ) : ℚ := if x < 0 then -x else x

/-- JavaScript `x < c` where `x` may be `undefined` (then the comparison is
false). -/
def jslt (x : Option ℚ) (c : ℚ) : Bool :=
  match x with
  | none => false
  | some v => decide (v < c)

/-- JavaScript `x > c` where `x` may be `undefined` (then the comparison is
false). -/
def jsgt (x : Option ℚ) (c : ℚ) : Bool :=
  match x with
  | none => false
  | some v => decide (v > c)

/-- JavaScript `a != b` where `b` may be `undefined` (then the comparison is
true). -/
def jsneq (a : ℤ) (b : Option ℤ) : Bool :=
  match b with
  | none => true
  | some v => decide (a ≠ v)

/-- A geographic coordinate, as in `stores/QueryStore.ts`. -/
structure Coordinate where
  lat : ℚ
  lng : ℚ
deriving DecidableEq, Repr

/-- One maneuver of a path (`api/graphhopper.ts`); only the fields read by
the navigation store are modelled. -/
structure Instruction where
  sign : ℤ
  text : String
  street_name : String
deriving DecidableEq, Repr

/-- A routing path (`api/graphhopper.ts`); only the fields read by the
navigation store are modelled.  `snapped_waypoints` stores the waypoint
coordinates as `(lng, lat)` pairs, exactly like the GeoJSON coordinate
arrays of the source. -/
structure Path where
  distance : ℚ
  instructions : List Instruction
  snapped_waypoints : List (ℚ × ℚ)
deriving DecidableEq, Repr

/-- Result record of `getCurrentInstruction` (`turnNavigation/GeoMethods.ts`):
the projection of a fix onto a path's instruction sequence. -/
structure InstrResult where
  index : ℤ
  distanceToTurn : ℚ
  timeToEnd : ℚ
  distanceToEnd : ℚ
  nextWaypointIndex : ℕ
  distanceToWaypoint : ℚ
  distanceToRoute : ℚ
deriving DecidableEq, Repr

/-- Result record of `getCurrentDetails` (`turnNavigation/GeoMethods.ts`):
the per-point path details at the current position.  `maxSpeed` may be
`null`. -/
structure DetailsResult where
  estimatedAvgSpeed : ℚ
  maxSpeed : Option ℚ
  surface : String
  roadClass : String
deriving DecidableEq, Repr

/-- The geometric helper library `GeoMethods`, an external collaborator of
the store; its internals are out of scope and it is passed as a parameter. -/
structure GeoMethods where
  calcDist : Coordinate → Coordinate → ℚ
  getCurrentInstruction : List Instruction → Coordinate → InstrResult
  getCurrentDetails : Path → Coordinate → DetailsResult

/-- A custom routing model; its content is opaque to the navigation store. -/
abbrev CustomModel := String

/-- The `TNInstructionState` snapshot of `TurnNavigationStore.ts`. -/
structure TNInstructionState where
  index : ℤ
  distanceToTurn : ℚ
  timeToEnd : ℚ
  distanceToEnd : ℚ
  nextWaypointIndex : ℕ
  distanceToWaypoint : ℚ
  sign : ℤ
  text : String
  distanceToRoute : ℚ
deriving DecidableEq, Repr

/-- The `TNPathDetailsState` snapshot of `TurnNavigationStore.ts`. -/
structure TNPathDetailsState where
  maxSpeed : Option ℚ
  estimatedAvgSpeed : ℤ
  surface : String
  roadClass : String
deriving DecidableEq, Repr

/-- The `TNSettingsState` of `TurnNavigationStore.ts`. -/
structure TNSettingsState where
  fakeGPS : Bool
  acceptedRisk : Bool
  soundEnabled : Bool
deriving DecidableEq, Repr

/-- A partial update of the settings, as carried by the
`TurnNavigationSettingsUpdate` action and merged with object spread. -/
structure TNSettingsPatch where
  fakeGPS : Option Bool
  acceptedRisk : Option Bool
  soundEnabled : Option Bool
deriving DecidableEq, Repr

/-- Object-spread merge `{...settings, ...patch}`. -/
def applyPatch (s : TNSettingsState) (p : TNSettingsPatch) : TNSettingsState :=
  { fakeGPS := p.fakeGPS.getD s.fakeGPS
    acceptedRisk := p.acceptedRisk.getD s.acceptedRisk
    soundEnabled := p.soundEnabled.getD s.soundEnabled }

/-- The `TurnNavigationStoreState` of `TurnNavigationStore.ts`.  The
`instruction` and `pathDetails` snapshots are `none` while they are the
empty object `{}` of the source. -/
structure TNState where
  showUI : Bool
  started : Bool
  oldTiles : String
  coordinate : Coordinate
  speed : ℚ
  heading : ℚ
  initialPath : Option Path
  activePath : Option Path
  activeProfile : String
  customModel : Option CustomModel
  rerouteInProgress : Bool
  settings : TNSettingsState
  instruction : Option TNInstructionState
  pathDetails : Option TNPathDetailsState
deriving DecidableEq, Repr

/-- The arguments of a routing request (`RoutingArgs` of
`api/graphhopper.ts`), as assembled by the reroute branch. -/
structure RoutingArgs where
  points : List (ℚ × ℚ)
  maxAlternativeRoutes : ℕ
  heading : ℚ
  zoom : Bool
  profile : String
  customModel : Option CustomModel
deriving DecidableEq, Repr

/-- The side effects a `reduce` step can perform: issuing an asynchronous
routing request (`this.api.route`), speaking a text
(`this.speechSynthesizer.synthesize`), the teardown performed by
`this.stop()`, and starting the fake or real location source. -/
inductive Effect where
  | routeRequest (args : RoutingArgs)
  | speak (text : String)
  | stopLocationSource
  | initFake
  | initReal (enableFullscreen : Bool)
deriving DecidableEq, Repr

/-- The actions of `actions/Actions.ts` handled by
`TurnNavigationStore.reduce`. -/
inductive Action where
  | turnNavigationStop
  | turnNavigationSettingsUpdate (patch : TNSettingsPatch)
  | turnNavigationStart (enableFullscreen : Bool)
  | selectMapLayer (layer : String)
  | turnNavigationReroutingFailed
  | setCustomModel (customModel : Option CustomModel) (valid : Bool)
  | setVehicleProfile (profileName : String)
  | setSelectedPath (path : Path)
  | locationUpdate (coordinate : Coordinate) (speed : ℚ) (heading : ℚ)
  | turnNavigationRerouting (path : Path)
deriving DecidableEq, Repr

/-- Modelled from the spec: the translation function `tr` of
`translation/Translation.ts` is an external lookup of a display string; its
exact output does not matter to the navigation logic, so it is modelled as
the identity on the key. -/
def tr (key : String) : String := key

/-- Modelled from the spec: `tr` with one interpolation argument, modelled
as the key followed by the argument. -/
def trArg (key : String) (arg : String) : String := key ++ " " ++ arg

/-- The static helper `TurnNavigationStore.getWaypoint`: read waypoint
`nextWaypointIndex` of `path.snapped_waypoints` as a coordinate
(`[0]` is `lng`, `[1]` is `lat`). -/
def getWaypoint (path : Path) (nextWaypointIndex : ℕ) : Coordinate :=
  let c := path.snapped_waypoints.getD nextWaypointIndex (0, 0)
  { lng := c.1, lat := c.2 }

/-- The static method `TurnNavigationStore.skipWaypoint`.  The first
argument is the previously recorded distance-to-waypoint, which is
`undefined` (`none`) while no instruction snapshot has been committed.
`stateCoord` is accepted but unused, exactly as in the source. -/
def skipWaypoint (geo : GeoMethods) (prevStateDistanceToWaypoint : Option ℚ)
    (waypoint : Coordinate) (stateCoord actionCoord : Coordinate) : Bool :=
  if jslt prevStateDistanceToWaypoint 50 then true
  else
    let straightDistToWaypoint := geo.calcDist actionCoord waypoint
    if straightDistToWaypoint < 50 then true
    else jslt prevStateDistanceToWaypoint 80 && decide (straightDistToWaypoint < 80)

/-- The private method `TurnNavigationStore.distanceToRouteChange`:
`isNaN(state.instruction.distanceToRoute)` holds exactly while no
instruction snapshot has been committed (`none`), in which case the new
distance is compared against the fixed threshold 50; otherwise the absolute
change against the recorded value is compared against 50. -/
def distanceToRouteChange (s : TNState) (actionDistance : ℚ) : Bool :=
  match s.instruction with
  | none => decide (actionDistance > 50)
  | some i => decide (jsAbs (i.distanceToRoute - actionDistance) > 50)

/-- Lines 316-342 of the `LocationUpdate` branch: project the fix onto
`activePath` and evaluate `skipWaypoint`; if the waypoint of a two-point
`activePath` should be skipped while `initialPath` still has more than two
waypoints, switch back to `initialPath` and recompute both. -/
def selectPathAndSkip (geo : GeoMethods) (s : TNState)
    (initialPath activePath : Path) (coordinate : Coordinate) :
    Path × InstrResult × Bool :=
  let instr := geo.getCurrentInstruction activePath.instructions coordinate
  let skip := skipWaypoint geo (s.instruction.map (·.distanceToWaypoint))
    (getWaypoint activePath instr.nextWaypointIndex) s.coordinate coordinate
  if skip && activePath.snapped_waypoints.length == 2
      && decide (initialPath.snapped_waypoints.length > 2) then
    let instr2 := geo.getCurrentInstruction initialPath.instructions coordinate
    let skip2 := skipWaypoint geo (s.instruction.map (·.distanceToWaypoint))
      (getWaypoint initialPath instr2.nextWaypointIndex) s.coordinate coordinate
    (initialPath, instr2, skip2)
  else
    (activePath, instr, skip)

/-- Lines 344-348 of the `LocationUpdate` branch: if a skip is indicated,
advance `nextWaypointIndex` when a further waypoint exists and otherwise
cancel the skip. -/
def adjustSkip (path : Path) (instr : InstrResult) (skip : Bool) :
    InstrResult × Bool :=
  if skip then
    if instr.nextWaypointIndex + 1 < path.snapped_waypoints.length then
      ({ instr with nextWaypointIndex := instr.nextWaypointIndex + 1 }, true)
    else
      (instr, false)
  else
    (instr, skip)

/-- The constant `firstAnnounceDistance` of the announcement policy. -/
def firstAnnounceDistance : ℚ := 1150

/-- The speed-scaled near-announcement threshold
`10 + 2 * Math.round(estimatedAvgSpeed / 5) * 5`. -/
def lastAnnounceDist (estimatedAvgSpeed : ℚ) : ℚ :=
  10 + 2 * ((jsRound (estimatedAvgSpeed / 5) : ℤ) : ℚ) * 5

/-- Lines 396-452 of the `LocationUpdate` branch: commit the new
instruction and path-details snapshot, set `showUI`, and run the
voice-announcement policy (the private `synthesize` re-checks
`soundEnabled`, which cannot change within the step, so the single check is
faithful). -/
def commitLocation (geo : GeoMethods) (s : TNState) (path : Path)
    (instr : InstrResult) (coordinate : Coordinate) (speed heading : ℚ) :
    TNState × List Effect :=
  let d := geo.getCurrentDetails path coordinate
  let estimatedAvgSpeed := d.estimatedAvgSpeed
  let instructionState := s.instruction
  let nextInstruction := path.instructions.getD instr.index.toNat ⟨0, "", ""⟩
  let text := nextInstruction.street_name
  let lastAnnounceDistance := lastAnnounceDist estimatedAvgSpeed
  let nearEffects : List Effect :=
    if s.settings.soundEnabled
        && decide (instr.distanceToTurn ≤ lastAnnounceDistance)
        && (jsgt (instructionState.map (·.distanceToTurn)) lastAnnounceDistance
            || jsneq instr.index (instructionState.map (·.index))) then
      [.speak nextInstruction.text]
    else []
  let farEffects : List Effect :=
    if s.settings.soundEnabled
        && decide (estimatedAvgSpeed > 15)
        && decide (instr.distanceToTurn > lastAnnounceDistance + 50)
        && decide (instr.distanceToTurn ≤ firstAnnounceDistance)
        && (jsgt (instructionState.map (·.distanceToTurn)) firstAnnounceDistance
            || jsneq instr.index (instructionState.map (·.index))) then
      let inString :=
        if instr.distanceToTurn > 800 then tr "in_km_singular"
        else trArg "in_m" (toString (jsRound (instr.distanceToTurn / 100) * 100))
      [.speak (inString ++ " " ++ nextInstruction.text)]
    else []
  ({ s with
      showUI := true
      heading := heading
      speed := speed
      coordinate := coordinate
      instruction := some
        { index := instr.index
          distanceToTurn := instr.distanceToTurn
          timeToEnd := instr.timeToEnd
          distanceToEnd := instr.distanceToEnd
          nextWaypointIndex := instr.nextWaypointIndex
          distanceToWaypoint := instr.distanceToWaypoint
          sign := nextInstruction.sign
          text := text
          distanceToRoute := instr.distanceToRoute }
      pathDetails := some
        { estimatedAvgSpeed := jsRound estimatedAvgSpeed
          maxSpeed := d.maxSpeed
          surface := d.surface
          roadClass := d.roadClass } },
    nearEffects ++ farEffects)

/-- The `LocationUpdate` branch of `TurnNavigationStore.reduce`
(lines 311-452). -/
def reduceLocationUpdate (geo : GeoMethods) (s : TNState)
    (coordinate : Coordinate) (speed heading : ℚ) :
    Except String (TNState × List Effect) :=
  match s.initialPath, s.activePath with
  | none, _ => .error "initialPath must not be null"
  | some _, none => .error "activePath must not be null"
  | some initialPath, some activePath =>
    if s.activeProfile = "" then .ok (s, [])
    else
      let psk := selectPathAndSkip geo s initialPath activePath coordinate
      let path := psk.1
      let a := adjustSkip path psk.2.1 psk.2.2
      let instr := a.1
      let skipWp := a.2
      if (s.showUI && distanceToRouteChange s instr.distanceToRoute) || skipWp then
        if !s.rerouteInProgress then
          let toCoordinate := getWaypoint path instr.nextWaypointIndex
          let args : RoutingArgs :=
            { points := [(coordinate.lng, coordinate.lat), (toCoordinate.lng, toCoordinate.lat)]
              maxAlternativeRoutes := 0
              heading := heading
              zoom := false
              profile := s.activeProfile
              customModel := s.customModel }
          .ok ({ s with
                  rerouteInProgress := true
                  heading := heading
                  speed := speed
                  coordinate := coordinate },
               [.routeRequest args])
        else
          .ok ({ s with
                  rerouteInProgress := false
                  heading := heading
                  speed := speed
                  coordinate := coordinate },
               [])
      else if instr.index < 0 then
        .error "Instruction should be valid if distanceToRoute is small"
      else
        .ok (commitLocation geo s path instr coordinate speed heading)

/-- The `TurnNavigationRerouting` branch of `TurnNavigationStore.reduce`
(lines 453-492). -/
def reduceRerouting (geo : GeoMethods) (s : TNState) (path : Path) :
    TNState × List Effect :=
  let instr := geo.getCurrentInstruction path.instructions s.coordinate
  if instr.index < 0 then
    ({ s with rerouteInProgress := false }, [])
  else
    let nextInstruction := path.instructions.getD instr.index.toNat ⟨0, "", ""⟩
    let text := nextInstruction.street_name
    let d := geo.getCurrentDetails path s.coordinate
    ({ s with
        activePath := some path
        rerouteInProgress := false
        instruction := some
          { index := instr.index
            distanceToTurn := instr.distanceToTurn
            timeToEnd := instr.timeToEnd
            distanceToEnd := instr.distanceToEnd
            nextWaypointIndex := instr.nextWaypointIndex
            distanceToWaypoint := instr.distanceToWaypoint
            sign := nextInstruction.sign
            text := text
            distanceToRoute := instr.distanceToRoute }
        pathDetails := some
          { estimatedAvgSpeed := jsRound d.estimatedAvgSpeed
            maxSpeed := d.maxSpeed
            surface := d.surface
            roadClass := d.roadClass } },
     [])

/-- `TurnNavigationStore.reduce`, the single transition function of the
store.  A thrown `Error` is returned as `Except.error` with the thrown
message; in the source an exception propagates out of the dispatcher and
the store state is not replaced. -/
def reduce (geo : GeoMethods) (s : TNState) (a : Action) :
    Except String (TNState × List Effect) :=
  match a with
  | .turnNavigationStop =>
      .ok ({ s with showUI := false, started := false, speed := 0, heading := 0 },
           [.stopLocationSource])
  | .turnNavigationSettingsUpdate patch =>
      .ok ({ s with settings := applyPatch s.settings patch }, [])
  | .turnNavigationStart enableFullscreen =>
      .ok ({ s with started := true },
           [if s.settings.fakeGPS then .initFake else .initReal enableFullscreen])
  | .selectMapLayer layer =>
      if !s.started then .ok ({ s with oldTiles := layer }, [])
      else .ok (s, [])
  | .turnNavigationReroutingFailed =>
      .ok ({ s with rerouteInProgress := false }, [])
  | .setCustomModel customModel valid =>
      .ok ({ s with customModel := if valid then customModel else none }, [])
  | .setVehicleProfile profileName =>
      .ok ({ s with activeProfile := profileName }, [])
  | .setSelectedPath path =>
      if s.showUI then .error "Changing path while turn navigation should not happen"
      else
        .ok ({ s with
                initialPath := some path
                activePath := some path
                instruction := none
                pathDetails := none },
             [])
  | .locationUpdate coordinate speed heading =>
      reduceLocationUpdate geo s coordinate speed heading
  | .turnNavigationRerouting path =>
      .ok (reduceRerouting geo s path)

/-- The promise handlers of the reroute request (lines 366-381): a
successful resolution with at least one candidate path dispatches
`TurnNavigationRerouting` with the first candidate, a resolution with zero
candidates or a rejected promise dispatches
`TurnNavigationReroutingFailed`. -/
def resolutionAction (result : Except Unit (List Path)) : Action :=
  match result with
  | .ok (p :: _) => .turnNavigationRerouting p
  | .ok [] => .turnNavigationReroutingFailed
  | .error _ => .turnNavigationReroutingFailed

/-! ### Concrete fixtures used to evaluate the model on explicit inputs -/

/-- The origin coordinate fixture. -/
def c0 : Coordinate := ⟨0, 0⟩

/-- A two-waypoint path fixture with a single instruction. -/
def pathA : Path := ⟨1000, [⟨2, "turn right", "Main Street"⟩], [(0, 0), (1, 1)]⟩

/-- A second, distinct two-waypoint path fixture. -/
def pathB : Path := ⟨1500, [⟨-2, "turn left", "Side Road"⟩], [(0, 0), (3, 3)]⟩

/-- A projection result fixture: on-route at instruction 0. -/
def instrOk : InstrResult :=
  { index := 0, distanceToTurn := 500, timeToEnd := 60, distanceToEnd := 900
    nextWaypointIndex := 1, distanceToWaypoint := 900, distanceToRoute := 10 }

/-- A `GeoMethods` fixture whose straight-line distance is the constant `d`
and whose projection is the constant `i`. -/
def constGeo (d : ℚ) (i : InstrResult) : GeoMethods :=
  { calcDist := fun _ _ => d
    getCurrentInstruction := fun _ _ => i
    getCurrentDetails := fun _ _ => ⟨30, none, "asphalt", "secondary"⟩ }

/-- A three-waypoint path fixture with two instructions. -/
def pathC : Path :=
  ⟨2000, [⟨1, "keep straight", "A Road"⟩, ⟨4, "arrive", "B Road"⟩], [(0, 0), (1, 1), (2, 2)]⟩

/-- A previously committed instruction snapshot fixture: far from the next
waypoint (distance 100) and 10 units off the route. -/
def prevInstr100 : TNInstructionState :=
  { index := 0, distanceToTurn := 500, timeToEnd := 60, distanceToEnd := 900
    nextWaypointIndex := 1, distanceToWaypoint := 100, sign := 2
    text := "Main Street", distanceToRoute := 10 }

/-- The initial store state, as built by the constructor of
`TurnNavigationStore` (with `fakeGPS := false` and tiles `"t"`). -/
def initialState : TNState :=
  { showUI := false, started := false, oldTiles := "t", coordinate := ⟨0, 0⟩
    speed := 0, heading := 0, initialPath := none, activePath := none
    activeProfile := "", customModel := none, rerouteInProgress := false
    settings := ⟨false, false, true⟩, instruction := none, pathDetails := none }

/-- A three-waypoint path fixture whose middle waypoint is at `(5, 5)`. -/
def pathThree : Path :=
  ⟨3000, [⟨0, "left", "L Street"⟩, ⟨0, "right", "R Street"⟩], [(0, 0), (5, 5), (2, 2)]⟩

/-- An off-route projection fixture (`index = -1`). -/
def negInstr : InstrResult :=
  { index := -1, distanceToTurn := 0, timeToEnd := 0, distanceToEnd := 0
    nextWaypointIndex := 1, distanceToWaypoint := 0, distanceToRoute := 10 }

/-- An on-route projection fixture (`index = 0`). -/
def posInstr : InstrResult :=
  { index := 0, distanceToTurn := 300, timeToEnd := 30, distanceToEnd := 600
    nextWaypointIndex := 1, distanceToWaypoint := 400, distanceToRoute := 10 }

/-- A `GeoMethods` fixture that projects off-route onto `pathA` but
on-route onto every other instruction list, and is 40 units from waypoints
with `lng = 1` and 60 units from every other waypoint. -/
def geoSwitch : GeoMethods :=
  { calcDist := fun _ w => if w.lng = 1 then 40 else 60
    getCurrentInstruction := fun instrs _ =>
      if instrs = pathA.instructions then negInstr else posInstr
    getCurrentDetails := fun _ _ => ⟨30, none, "asphalt", "secondary"⟩ }

/-- A guiding-not-yet-visible state on the two-point leg `pathA` whose
original route `pathThree` still has three waypoints. -/
def sSwitch : TNState :=
  { initialState with
      initialPath := some pathThree
      activePath := some pathA
      activeProfile := "car"
      settings := ⟨false, false, false⟩
      instruction := some prevInstr100 }

/-- A state ready to commit its first on-route fix. -/
def sCommit : TNState :=
  { initialState with
      initialPath := some pathA
      activePath := some pathA
      activeProfile := "car"
      instruction := some prevInstr100 }

/-- A state with a reroute resolution pending. -/
def sPending : TNState :=
  { initialState with activePath := some pathA, rerouteInProgress := true }

/-- A projection fixture deviating 100 units from the route and far from
every waypoint. -/
def instrDeviate : InstrResult :=
  { instrOk with distanceToRoute := 100, distanceToWaypoint := 10000 }

/-- A guiding state with a reroute request in flight whose last committed
deviation was 0. -/
def sInFlight : TNState :=
  { initialState with
      showUI := true
      started := true
      initialPath := some pathA
      activePath := some pathA
      activeProfile := "car"
      rerouteInProgress := true
      settings := ⟨false, false, false⟩
      instruction := some { prevInstr100 with distanceToWaypoint := 10000, distanceToRoute := 0 } }

/-- A projection fixture 30 units before the turn and far from every
waypoint. -/
def instr30 : InstrResult :=
  { index := 0, distanceToTurn := 30, timeToEnd := 60, distanceToEnd := 900
    nextWaypointIndex := 1, distanceToWaypoint := 10000, distanceToRoute := 10 }

/-- A projection fixture 18 units before the turn and far from every
waypoint. -/
def instr18 : InstrResult :=
  { index := 0, distanceToTurn := 18, timeToEnd := 50, distanceToEnd := 880
    nextWaypointIndex := 1, distanceToWaypoint := 10000, distanceToRoute := 10 }

/-- A `GeoMethods` fixture replaying the distance-to-turn sequence
`[30, 18]` (30 at latitude 1, 18 elsewhere) with estimated average speed
25. -/
def geoAnnounce : GeoMethods :=
  { calcDist := fun _ _ => 10000
    getCurrentInstruction := fun _ c => if c.lat = 1 then instr30 else instr18
    getCurrentDetails := fun _ _ => ⟨25, none, "asphalt", "secondary"⟩ }

/-- A guiding state with sound enabled whose committed distance-to-turn is
100 on instruction 0. -/
def sAnnounce : TNState :=
  { initialState with
      showUI := true
      started := true
      initialPath := some pathA
      activePath := some pathA
      activeProfile := "car"
      settings := ⟨false, false, true⟩
      instruction := some
        { prevInstr100 with distanceToWaypoint := 10000, distanceToTurn := 100 } }

/-- A guiding state matching `constGeo 10000 instrOk` fixes (deviation
unchanged at 10, far from all waypoints), with sound disabled. -/
def sRun : TNState :=
  { initialState with
      showUI := true
      started := true
      initialPath := some pathA
      activePath := some pathA
      activeProfile := "car"
      settings := ⟨false, false, false⟩
      instruction := some { prevInstr100 with distanceToWaypoint := 10000 } }

/-- Decidable equality of reduction outcomes, used to evaluate the model at
concrete inputs. -/
instance : DecidableEq (Except String (TNState × List Effect)) := fun a b =>
  match a, b with
  | .ok x, .ok y =>
    if h : x = y then .isTrue (by rw [h]) else .isFalse (by simp [h])
  | .error x, .error y =>
    if h : x = y then .isTrue (by rw [h]) else .isFalse (by simp [h])
  | .ok _, .error _ => .isFalse (by simp)
  | .error _, .ok _ => .isFalse (by simp)

/-! ### Helper lemmas -/

/-- Every effect of the commit branch is a spoken announcement; in
particular the commit branch never issues a routing request. -/
lemma commitLocation_effects_speak (geo : GeoMethods) (s : TNState) (path : Path)
    (instr : InstrResult) (c : Coordinate) (sp hd : ℚ) :
    ∀ e ∈ (commitLocation geo s path instr c sp hd).2, ∃ t, e = Effect.speak t := by
  intro e he
  simp only [commitLocation, List.mem_append] at he
  rcases he with h | h <;>
    · split at h
      · simp only [List.mem_singleton] at h
        exact ⟨_, h⟩
      · simp at h

/-- The explicit `jsAbs` agrees with the absolute value. -/
lemma jsAbs_eq_abs (x : ℚ) : jsAbs x = |x| := by
  rcases lt_or_le x 0 with h | h
  · rw [jsAbs, if_pos h, abs_of_neg h]
  · rw [jsAbs, if_neg (not_lt.mpr h), abs_of_nonneg h]

/-- `distanceToRouteChange` holds exactly as the spec's deviation formula
states. -/
lemma distanceToRouteChange_iff (s : TNState) (d : ℚ) :
    distanceToRouteChange s d = true ↔
      (match s.instruction with
       | none => d > 50
       | some i => |i.distanceToRoute - d| > 50) := by
  cases h : s.instruction <;> simp [distanceToRouteChange, h, jsAbs_eq_abs]

/-- The waypoint-skip adjustment never changes the instruction index. -/
lemma adjustSkip_fst_index (p : Path) (i : InstrResult) (b : Bool) :
    (adjustSkip p i b).1.index = i.index := by
  cases b <;> simp only [adjustSkip, if_true, if_false, Bool.false_eq_true] <;> split <;> rfl

/-- Unfolding of the `LocationUpdate` branch once the preconditions hold. -/
lemma reduceLocationUpdate_unfold (geo : GeoMethods) (s : TNState)
    (c : Coordinate) (sp hd : ℚ) (ip ap : Path)
    (hip : s.initialPath = some ip) (hap : s.activePath = some ap)
    (hprof : ¬ s.activeProfile = "") :
    reduce geo s (Action.locationUpdate c sp hd) =
      (if (s.showUI && distanceToRouteChange s
            (adjustSkip (selectPathAndSkip geo s ip ap c).1
              (selectPathAndSkip geo s ip ap c).2.1
              (selectPathAndSkip geo s ip ap c).2.2).1.distanceToRoute)
          || (adjustSkip (selectPathAndSkip geo s ip ap c).1
              (selectPathAndSkip geo s ip ap c).2.1
              (selectPathAndSkip geo s ip ap c).2.2).2 then
         if !s.rerouteInProgress then
           .ok ({ s with
                   rerouteInProgress := true
                   heading := hd
                   speed := sp
                   coordinate := c },
                [Effect.routeRequest
                  { points := [(c.lng, c.lat),
                      ((getWaypoint (selectPathAndSkip geo s ip ap c).1
                        (adjustSkip (selectPathAndSkip geo s ip ap c).1
                          (selectPathAndSkip geo s ip ap c).2.1
                          (selectPathAndSkip geo s ip ap c).2.2).1.nextWaypointIndex).lng,
                       (getWaypoint (selectPathAndSkip geo s ip ap c).1
                        (adjustSkip (selectPathAndSkip geo s ip ap c).1
                          (selectPathAndSkip geo s ip ap c).2.1
                          (selectPathAndSkip geo s ip ap c).2.2).1.nextWaypointIndex).lat)]
                    maxAlternativeRoutes := 0
                    heading := hd
                    zoom := false
                    profile := s.activeProfile
                    customModel := s.customModel }])
         else
           .ok ({ s with
                   rerouteInProgress := false
                   heading := hd
                   speed := sp
                   coordinate := c },
                [])
       else if (adjustSkip (selectPathAndSkip geo s ip ap c).1
            (selectPathAndSkip geo s ip ap c).2.1
            (selectPathAndSkip geo s ip ap c).2.2).1.index < 0 then
         .error "Instruction should be valid if distanceToRoute is small"
       else
         .ok (commitLocation geo s (selectPathAndSkip geo s ip ap c).1
            (adjustSkip (selectPathAndSkip geo s ip ap c).1
              (selectPathAndSkip geo s ip ap c).2.1
              (selectPathAndSkip geo s ip ap c).2.2).1 c sp hd)) := by
  simp only [reduce, reduceLocationUpdate, hip, hap, if_neg hprof]

/-- A string never equals itself with a head and a space glued in front. -/
lemma ne_append_space_self (p t : String) : t ≠ p ++ " " ++ t := by
  intro h
  have hl := congrArg String.length h
  rw [String.length_append, String.length_append] at hl
  have hsp : (" ").length = 1 := rfl
  omega

/-! ### Claims -/

/-- C2: for every previous distance-to-waypoint value `p`, waypoint `w` and
new fix coordinate `c` with straight-line distance `s = calcDist c w`,
`skipWaypoint` returns true iff `p < 50`, or `s < 50`, or
(`p < 80` and `s < 80`); in particular `p = 40` gives true, `p = 100` with
`s = 60` gives false, and `p = 70` with `s = 75` gives true. -/
theorem skipWaypoint_iff_thresholds :
    (∀ (geo : GeoMethods) (p : ℚ) (w sc ac : Coordinate),
      skipWaypoint geo (some p) w sc ac = true ↔
        (p < 50 ∨ geo.calcDist ac w < 50 ∨ (p < 80 ∧ geo.calcDist ac w < 80)))
    ∧ skipWaypoint (constGeo 60 instrOk) (some 40) c0 c0 c0 = true
    ∧ skipWaypoint (constGeo 60 instrOk) (some 100) c0 c0 c0 = false
    ∧ skipWaypoint (constGeo 75 instrOk) (some 70) c0 c0 c0 = true := by
  refine ⟨?_, by decide, by decide, by decide⟩
  intro geo p w sc ac
  simp only [skipWaypoint, jslt]
  by_cases h1 : p < 50 <;> by_cases h2 : geo.calcDist ac w < 50 <;>
    by_cases h3 : p < 80 <;> by_cases h4 : geo.calcDist ac w < 80 <;>
    simp [h1, h2, h3, h4]

/-- C9: processing `TurnNavigationStop` sets `showUI` and `started` to
false and `speed` and `heading` to 0, while leaving every other state
field (coordinate, paths, profile, custom model, `rerouteInProgress`,
instruction, path details, settings, old tiles) unchanged. -/
theorem stop_resets_only_ui_and_motion (geo : GeoMethods) (s : TNState) :
    ∃ s', reduce geo s Action.turnNavigationStop = .ok (s', [Effect.stopLocationSource])
      ∧ s'.showUI = false ∧ s'.started = false ∧ s'.speed = 0 ∧ s'.heading = 0
      ∧ s'.coordinate = s.coordinate ∧ s'.initialPath = s.initialPath
      ∧ s'.activePath = s.activePath ∧ s'.activeProfile = s.activeProfile
      ∧ s'.customModel = s.customModel ∧ s'.rerouteInProgress = s.rerouteInProgress
      ∧ s'.instruction = s.instruction ∧ s'.pathDetails = s.pathDetails
      ∧ s'.settings = s.settings ∧ s'.oldTiles = s.oldTiles :=
  ⟨_, rfl, rfl, rfl, rfl, rfl, rfl, rfl, rfl, rfl, rfl, rfl, rfl, rfl, rfl, rfl⟩

/-- C10: processing `SetSelectedPath` while `showUI` is true throws (the
store state is not replaced); with `showUI` false it sets both paths to the
given path, resets the instruction and path-details snapshots to empty, and
leaves every other field unchanged. -/
theorem setSelectedPath_guard_and_reset (geo : GeoMethods) (s : TNState) (p : Path) :
    (s.showUI = true →
      reduce geo s (Action.setSelectedPath p)
        = .error "Changing path while turn navigation should not happen")
    ∧ (s.showUI = false →
      ∃ s', reduce geo s (Action.setSelectedPath p) = .ok (s', [])
        ∧ s'.initialPath = some p ∧ s'.activePath = some p
        ∧ s'.instruction = none ∧ s'.pathDetails = none
        ∧ s'.showUI = s.showUI ∧ s'.started = s.started
        ∧ s'.coordinate = s.coordinate ∧ s'.speed = s.speed
        ∧ s'.heading = s.heading ∧ s'.activeProfile = s.activeProfile
        ∧ s'.customModel = s.customModel
        ∧ s'.rerouteInProgress = s.rerouteInProgress
        ∧ s'.settings = s.settings ∧ s'.oldTiles = s.oldTiles) := by
  constructor
  · intro h
    simp [reduce, h]
  · intro h
    refine ⟨{ s with
        initialPath := some p
        activePath := some p
        instruction := none
        pathDetails := none },
      ?_, rfl, rfl, rfl, rfl, rfl, rfl, rfl, rfl, rfl, rfl, rfl, rfl, rfl, rfl⟩
    simp [reduce, h]

/-- C3: with the preconditions of a fix met and no reroute in flight, a
routing request is issued exactly when `showUI` is true and the deviation
change exceeds 50 (against the fixed threshold 50 when no previous
`distanceToRoute` has been recorded), or when a waypoint skip survived
adjustment — the latter regardless of `showUI`. -/
theorem reroute_trigger_iff (geo : GeoMethods) (s : TNState)
    (c : Coordinate) (sp hd : ℚ) (ip ap : Path)
    (hip : s.initialPath = some ip) (hap : s.activePath = some ap)
    (hprof : ¬ s.activeProfile = "") (hrr : s.rerouteInProgress = false) :
    (∃ s' effs args, reduce geo s (Action.locationUpdate c sp hd) = .ok (s', effs)
        ∧ Effect.routeRequest args ∈ effs)
      ↔ (let psk := selectPathAndSkip geo s ip ap c
         let ins := (adjustSkip psk.1 psk.2.1 psk.2.2).1
         let sk := (adjustSkip psk.1 psk.2.1 psk.2.2).2
         (s.showUI = true ∧
            (match s.instruction with
             | none => ins.distanceToRoute > 50
             | some i => |i.distanceToRoute - ins.distanceToRoute| > 50))
          ∨ sk = true) := by
  rw [reduceLocationUpdate_unfold geo s c sp hd ip ap hip hap hprof]
  simp only [hrr, Bool.not_false, if_true]
  by_cases hcond : (s.showUI && distanceToRouteChange s
      (adjustSkip (selectPathAndSkip geo s ip ap c).1 (selectPathAndSkip geo s ip ap c).2.1
        (selectPathAndSkip geo s ip ap c).2.2).1.distanceToRoute)
      || (adjustSkip (selectPathAndSkip geo s ip ap c).1 (selectPathAndSkip geo s ip ap c).2.1
        (selectPathAndSkip geo s ip ap c).2.2).2
  · rw [if_pos hcond]
    simp only [Bool.or_eq_true, Bool.and_eq_true] at hcond
    constructor
    · intro _
      rcases hcond with ⟨hui, hch⟩ | hsk
      · exact Or.inl ⟨hui, (distanceToRouteChange_iff s _).mp hch⟩
      · exact Or.inr hsk
    · intro _
      exact ⟨_, _, _, rfl, List.mem_singleton_self _⟩
  · rw [if_neg hcond]
    simp only [Bool.or_eq_true, Bool.and_eq_true, not_or, not_and] at hcond
    constructor
    · rintro ⟨s', effs, args, hred, hmem⟩
      split at hred
      · exact absurd hred (by simp)
      · have hpair := Except.ok.inj hred
        have heffs : effs = (commitLocation geo s (selectPathAndSkip geo s ip ap c).1
            (adjustSkip (selectPathAndSkip geo s ip ap c).1
              (selectPathAndSkip geo s ip ap c).2.1
              (selectPathAndSkip geo s ip ap c).2.2).1 c sp hd).2 := by
          rw [hpair]
        rw [heffs] at hmem
        obtain ⟨t, ht⟩ := commitLocation_effects_speak geo s _ _ c sp hd _ hmem
        simp at ht
    · rintro (⟨hui, hch⟩ | hsk)
      · exact absurd ((distanceToRouteChange_iff s _).mpr hch) (by simpa [hui] using hcond.1)
      · exact absurd hsk (by simpa using hcond.2)

/-- Witness for C3: a deviating fix (previous deviation 0, new deviation
100) with `showUI` true issues a routing request. -/
theorem reroute_trigger_iff_witness :
    ∃ s' effs args,
      reduce (constGeo 10000 { instrOk with distanceToRoute := 100 })
        { initialState with
            showUI := true
            initialPath := some pathA
            activePath := some pathA
            activeProfile := "car"
            instruction := some
              { index := 0, distanceToTurn := 500, timeToEnd := 60, distanceToEnd := 900
                nextWaypointIndex := 1, distanceToWaypoint := 10000, sign := 2
                text := "Main Street", distanceToRoute := 0 } }
        (Action.locationUpdate ⟨1, 1⟩ 4 90) = .ok (s', effs)
      ∧ Effect.routeRequest args ∈ effs := by
  apply (reroute_trigger_iff (constGeo 10000 { instrOk with distanceToRoute := 100 })
    _ ⟨1, 1⟩ 4 90 pathA pathA rfl rfl (by decide) rfl).mpr
  simp only [selectPathAndSkip, adjustSkip, skipWaypoint, constGeo, jslt]
  norm_num

/-- C8: when a waypoint skip is indicated but `nextWaypointIndex + 1` is
not below the number of snapped waypoints, the skip is cancelled,
`nextWaypointIndex` is not advanced, and (absent an independent deviation
trigger) no routing request is issued; otherwise the skip advances
`nextWaypointIndex` by exactly one and survives. -/
theorem skip_cancelled_at_trip_end (geo : GeoMethods) (s : TNState)
    (c : Coordinate) (sp hd : ℚ) (ip ap : Path)
    (hip : s.initialPath = some ip) (hap : s.activePath = some ap)
    (hprof : ¬ s.activeProfile = "")
    (path : Path) (instr : InstrResult)
    (hpsk : selectPathAndSkip geo s ip ap c = (path, instr, true)) :
    (¬ instr.nextWaypointIndex + 1 < path.snapped_waypoints.length →
      (adjustSkip path instr true).2 = false
      ∧ (adjustSkip path instr true).1.nextWaypointIndex = instr.nextWaypointIndex
      ∧ (¬ (s.showUI = true ∧ distanceToRouteChange s instr.distanceToRoute = true) →
          ∀ s' effs, reduce geo s (Action.locationUpdate c sp hd) = .ok (s', effs) →
            ∀ args, Effect.routeRequest args ∉ effs))
    ∧ (instr.nextWaypointIndex + 1 < path.snapped_waypoints.length →
      (adjustSkip path instr true).2 = true
      ∧ (adjustSkip path instr true).1.nextWaypointIndex = instr.nextWaypointIndex + 1) := by
  constructor
  · intro hend
    have hadj : adjustSkip path instr true = (instr, false) := by
      simp [adjustSkip, hend]
    refine ⟨by simp [hadj], by simp [hadj], ?_⟩
    intro hno s' effs hred args hmem
    have h1 : (selectPathAndSkip geo s ip ap c).1 = path := by rw [hpsk]
    have h2 : (selectPathAndSkip geo s ip ap c).2.1 = instr := by rw [hpsk]
    have h3 : (selectPathAndSkip geo s ip ap c).2.2 = true := by rw [hpsk]
    have hcond : (s.showUI && distanceToRouteChange s instr.distanceToRoute) = false := by
      cases hu : s.showUI <;> cases hch : distanceToRouteChange s instr.distanceToRoute <;>
        simp_all
    rw [reduceLocationUpdate_unfold geo s c sp hd ip ap hip hap hprof] at hred
    simp only [h1, h2, h3, hadj, hcond, Bool.false_or, Bool.or_false,
      Bool.false_eq_true, if_false] at hred
    split at hred
    · exact absurd hred (by simp)
    · have heffs : effs = (commitLocation geo s path instr c sp hd).2 := by
        rw [Except.ok.inj hred]
      rw [heffs] at hmem
      obtain ⟨t, ht⟩ := commitLocation_effects_speak geo s path instr c sp hd _ hmem
      simp at ht
  · intro hlt
    simp [adjustSkip, hlt]

/-- Witness for C8: with a two-waypoint active path and the fix 40 units
from the final waypoint the indicated skip is cancelled and the fix issues
no routing request; with a three-waypoint path the skip advances the
waypoint index from 1 to 2. -/
theorem skip_cancelled_at_trip_end_witness :
    ((adjustSkip pathA instrOk true).2 = false
      ∧ (∀ s' effs,
          reduce (constGeo 40 instrOk)
            { initialState with
                initialPath := some pathA
                activePath := some pathA
                activeProfile := "car"
                instruction := some prevInstr100 }
            (Action.locationUpdate ⟨1, 1⟩ 4 0) = .ok (s', effs) →
          ∀ args, Effect.routeRequest args ∉ effs))
    ∧ ((adjustSkip pathC instrOk true).2 = true
      ∧ (adjustSkip pathC instrOk true).1.nextWaypointIndex = 2) := by
  constructor
  · have h := (skip_cancelled_at_trip_end (constGeo 40 instrOk)
      { initialState with
          initialPath := some pathA
          activePath := some pathA
          activeProfile := "car"
          instruction := some prevInstr100 }
      ⟨1, 1⟩ 4 0 pathA pathA rfl rfl (by decide) pathA instrOk (by decide)).1 (by decide)
    exact ⟨h.1, h.2.2 (by decide)⟩
  · have h := (skip_cancelled_at_trip_end (constGeo 40 instrOk)
      { initialState with
          initialPath := some pathC
          activePath := some pathC
          activeProfile := "car"
          instruction := some prevInstr100 }
      ⟨1, 1⟩ 4 0 pathC pathC rfl rfl (by decide) pathC instrOk (by decide)).2 (by decide)
    exact h

/-- C5 (amended): `showUI` can change false to true only through a
`LocationUpdate` whose processed projection has a non-negative instruction
index (against the path selected for the commit, which is `activePath`
except after the two-point-leg switch back to `initialPath`), and it can
change true to false only through `TurnNavigationStop`; hence it turns on
at most once per navigation session. -/
theorem showUI_monotone_until_stop (geo : GeoMethods) (s : TNState) (a : Action)
    (s' : TNState) (effs : List Effect)
    (h : reduce geo s a = .ok (s', effs)) :
    (s.showUI = false → s'.showUI = true →
      ∃ c sp hd, a = Action.locationUpdate c sp hd
        ∧ ∃ ip ap, s.initialPath = some ip ∧ s.activePath = some ap
          ∧ 0 ≤ (selectPathAndSkip geo s ip ap c).2.1.index)
    ∧ (s.showUI = true → s'.showUI = false → a = Action.turnNavigationStop) := by
  cases a with
  | turnNavigationStop =>
    simp only [reduce, Except.ok.injEq, Prod.mk.injEq] at h
    obtain ⟨hs, -⟩ := h
    subst hs
    constructor <;> intro h1 h2 <;> simp_all
  | turnNavigationSettingsUpdate patch =>
    simp only [reduce, Except.ok.injEq, Prod.mk.injEq] at h
    obtain ⟨hs, -⟩ := h
    subst hs
    constructor <;> intro h1 h2 <;> simp_all
  | turnNavigationStart enableFullscreen =>
    simp only [reduce, Except.ok.injEq, Prod.mk.injEq] at h
    obtain ⟨hs, -⟩ := h
    subst hs
    constructor <;> intro h1 h2 <;> simp_all
  | selectMapLayer layer =>
    simp only [reduce] at h
    split at h <;>
      · simp only [Except.ok.injEq, Prod.mk.injEq] at h
        obtain ⟨hs, -⟩ := h
        subst hs
        constructor <;> intro h1 h2 <;> simp_all
  | turnNavigationReroutingFailed =>
    simp only [reduce, Except.ok.injEq, Prod.mk.injEq] at h
    obtain ⟨hs, -⟩ := h
    subst hs
    constructor <;> intro h1 h2 <;> simp_all
  | setCustomModel customModel valid =>
    simp only [reduce, Except.ok.injEq, Prod.mk.injEq] at h
    obtain ⟨hs, -⟩ := h
    subst hs
    constructor <;> intro h1 h2 <;> simp_all
  | setVehicleProfile profileName =>
    simp only [reduce, Except.ok.injEq, Prod.mk.injEq] at h
    obtain ⟨hs, -⟩ := h
    subst hs
    constructor <;> intro h1 h2 <;> simp_all
  | setSelectedPath path =>
    simp only [reduce] at h
    split at h
    · exact absurd h (by simp)
    · simp only [Except.ok.injEq, Prod.mk.injEq] at h
      obtain ⟨hs, -⟩ := h
      subst hs
      constructor <;> intro h1 h2 <;> simp_all
  | turnNavigationRerouting path =>
    simp only [reduce, reduceRerouting] at h
    split at h <;>
      · simp only [Except.ok.injEq, Prod.mk.injEq] at h
        obtain ⟨hs, -⟩ := h
        subst hs
        constructor <;> intro h1 h2 <;> simp_all
  | locationUpdate c sp hd =>
    cases hip : s.initialPath with
    | none => simp [reduce, reduceLocationUpdate, hip] at h
    | some ip =>
      cases hap : s.activePath with
      | none => simp [reduce, reduceLocationUpdate, hip, hap] at h
      | some ap =>
        by_cases hprof : s.activeProfile = ""
        · simp only [reduce, reduceLocationUpdate, hip, hap, if_pos hprof,
            Except.ok.injEq, Prod.mk.injEq] at h
          obtain ⟨hs, -⟩ := h
          subst hs
          constructor <;> intro h1 h2 <;> simp_all
        · rw [reduceLocationUpdate_unfold geo s c sp hd ip ap hip hap hprof] at h
          split at h
          · split at h <;>
              · simp only [Except.ok.injEq, Prod.mk.injEq] at h
                obtain ⟨hs, -⟩ := h
                subst hs
                constructor <;> intro h1 h2 <;> simp_all
          · split at h
            · exact absurd h (by simp)
            · have hs := Except.ok.inj h
              have hs' : s' = (commitLocation geo s (selectPathAndSkip geo s ip ap c).1
                  (adjustSkip (selectPathAndSkip geo s ip ap c).1
                    (selectPathAndSkip geo s ip ap c).2.1
                    (selectPathAndSkip geo s ip ap c).2.2).1 c sp hd).1 := by
                rw [hs]
              have hshow : s'.showUI = true := by
                rw [hs']
                simp [commitLocation]
              constructor
              · intro _ _
                refine ⟨c, sp, hd, rfl, ip, ap, rfl, rfl, ?_⟩
                rename_i hidx
                rw [← adjustSkip_fst_index (selectPathAndSkip geo s ip ap c).1
                  (selectPathAndSkip geo s ip ap c).2.1
                  (selectPathAndSkip geo s ip ap c).2.2]
                omega
              · intro hT hF
                rw [hshow] at hF
                exact absurd hF (by simp)

/-- Counterexample for C5 as stated: on a two-point reroute leg whose
original route still has three waypoints, a fix that projects off-route
onto `activePath` (negative index) but on-route onto `initialPath` still
turns `showUI` on. -/
theorem showUI_counterexample_initialPath_projection :
    sSwitch.showUI = false
    ∧ sSwitch.activePath = some pathA
    ∧ (geoSwitch.getCurrentInstruction pathA.instructions ⟨9, 9⟩).index < 0
    ∧ ∃ s' effs, reduce geoSwitch sSwitch (Action.locationUpdate ⟨9, 9⟩ 4 0) = .ok (s', effs)
        ∧ s'.showUI = true := by
  exact ⟨rfl, rfl, by decide, (commitLocation geoSwitch sSwitch pathThree posInstr ⟨9, 9⟩ 4 0).1,
    (commitLocation geoSwitch sSwitch pathThree posInstr ⟨9, 9⟩ 4 0).2, rfl, rfl⟩

/-- Witness for C5: at a concrete on-route first fix the reduction step
exists and exhibits the conclusion of the transition theorem. -/
theorem showUI_monotone_until_stop_witness :
    ∃ c sp hd, (Action.locationUpdate ⟨1, 1⟩ 4 0 : Action) = Action.locationUpdate c sp hd
      ∧ ∃ ip ap, sCommit.initialPath = some ip ∧ sCommit.activePath = some ap
        ∧ 0 ≤ (selectPathAndSkip (constGeo 10000 instrOk) sCommit ip ap c).2.1.index := by
  have h := showUI_monotone_until_stop (constGeo 10000 instrOk) sCommit
    (Action.locationUpdate ⟨1, 1⟩ 4 0)
    (commitLocation (constGeo 10000 instrOk) sCommit pathA instrOk ⟨1, 1⟩ 4 0).1
    (commitLocation (constGeo 10000 instrOk) sCommit pathA instrOk ⟨1, 1⟩ 4 0).2 rfl
  exact h.1 rfl rfl

/-- C4 (amended): a successful resolution with at least one candidate path
dispatches `TurnNavigationRerouting` with the first candidate, which
replaces `activePath` and clears `rerouteInProgress` provided the current
coordinate projects onto the new path with a non-negative instruction
index; when that projection is negative, or the resolution has zero
candidates, or the request failed, `rerouteInProgress` is cleared and
`activePath` is left unchanged. -/
theorem rerouting_resolution_updates (geo : GeoMethods) (s : TNState) :
    (∀ p rest, resolutionAction (.ok (p :: rest)) = Action.turnNavigationRerouting p)
    ∧ (∀ p : Path, 0 ≤ (geo.getCurrentInstruction p.instructions s.coordinate).index →
        ∃ s' effs, reduce geo s (Action.turnNavigationRerouting p) = .ok (s', effs)
          ∧ s'.activePath = some p ∧ s'.rerouteInProgress = false)
    ∧ (∀ p : Path, (geo.getCurrentInstruction p.instructions s.coordinate).index < 0 →
        ∃ s', reduce geo s (Action.turnNavigationRerouting p) = .ok (s', [])
          ∧ s'.activePath = s.activePath ∧ s'.rerouteInProgress = false)
    ∧ resolutionAction (.ok []) = Action.turnNavigationReroutingFailed
    ∧ resolutionAction (.error ()) = Action.turnNavigationReroutingFailed
    ∧ (∃ s', reduce geo s Action.turnNavigationReroutingFailed = .ok (s', [])
        ∧ s'.activePath = s.activePath ∧ s'.rerouteInProgress = false) := by
  refine ⟨fun p rest => rfl, ?_, ?_, rfl, rfl,
    ⟨{ s with rerouteInProgress := false }, rfl, rfl, rfl⟩⟩
  · intro p hidx
    have hif : ¬ (geo.getCurrentInstruction p.instructions s.coordinate).index < 0 := by
      omega
    refine ⟨(reduceRerouting geo s p).1, (reduceRerouting geo s p).2, rfl, ?_, ?_⟩
    · simp [reduceRerouting, hif]
    · simp [reduceRerouting, hif]
  · intro p hidx
    refine ⟨{ s with rerouteInProgress := false }, ?_, rfl, rfl⟩
    simp [reduce, reduceRerouting, hidx]

/-- Witness for C4: an on-route resolution replaces the active path. -/
theorem rerouting_resolution_updates_witness :
    ((0 : ℤ) ≤ ((constGeo 60 posInstr).getCurrentInstruction pathB.instructions
        sPending.coordinate).index)
    ∧ ∃ s' effs, reduce (constGeo 60 posInstr) sPending (Action.turnNavigationRerouting pathB)
        = .ok (s', effs) ∧ s'.activePath = some pathB ∧ s'.rerouteInProgress = false := by
  exact ⟨by decide,
    (rerouting_resolution_updates (constGeo 60 posInstr) sPending).2.1 pathB (by decide)⟩

/-- Counterexample for C4 as stated: a successful resolution carrying one
candidate path whose projection of the current coordinate is off-route
(index `-1`) clears `rerouteInProgress` but does not replace
`activePath`. -/
theorem rerouting_success_leaves_stale_path :
    resolutionAction (.ok [pathB]) = Action.turnNavigationRerouting pathB
    ∧ ∃ s', reduce (constGeo 60 negInstr) sPending (resolutionAction (.ok [pathB])) = .ok (s', [])
        ∧ s'.rerouteInProgress = false ∧ s'.activePath = some pathA
        ∧ (some pathA : Option Path) ≠ some pathB := by
  exact ⟨rfl, { sPending with rerouteInProgress := false }, rfl, rfl, rfl, by decide⟩

/-- C1 (code behavior at the failing input): a deviating fix processed
while a reroute is in flight clears `rerouteInProgress` without any
resolution having been processed, and the next deviating fix then issues a
second routing request although the first one is still outstanding. -/
theorem reroute_in_flight_cleared_by_second_fix :
    ∃ s1 s2 args,
      reduce (constGeo 10000 instrDeviate) sInFlight (Action.locationUpdate ⟨1, 1⟩ 4 0)
        = .ok (s1, [])
      ∧ s1.rerouteInProgress = false
      ∧ reduce (constGeo 10000 instrDeviate) s1 (Action.locationUpdate ⟨2, 2⟩ 4 0)
        = .ok (s2, [Effect.routeRequest args])
      ∧ s2.rerouteInProgress = true := by
  refine ⟨{ sInFlight with
      rerouteInProgress := false
      heading := 0
      speed := 4
      coordinate := ⟨1, 1⟩ },
    { sInFlight with
      rerouteInProgress := true
      heading := 0
      speed := 4
      coordinate := ⟨2, 2⟩ },
    { points := [(2, 2), (1, 1)]
      maxAlternativeRoutes := 0
      heading := 0
      zoom := false
      profile := "car"
      customModel := none }, ?_, rfl, ?_, rfl⟩ <;> decide

/-- C7 (code behavior at the failing input): a queued location fix
processed right after `TurnNavigationStop` is not a no-op — it commits a
new snapshot and turns `showUI` back on. -/
theorem stop_then_queued_fix_mutates :
    ∃ s1 s2 effs,
      reduce (constGeo 10000 instrOk) sRun Action.turnNavigationStop
        = .ok (s1, [Effect.stopLocationSource])
      ∧ reduce (constGeo 10000 instrOk) s1 (Action.locationUpdate ⟨1, 1⟩ 4 0) = .ok (s2, effs)
      ∧ s1.showUI = false ∧ s1.started = false ∧ s2.showUI = true ∧ s2 ≠ s1 := by
  refine ⟨{ sRun with showUI := false, started := false, speed := 0, heading := 0 },
    (commitLocation (constGeo 10000 instrOk)
      { sRun with showUI := false, started := false, speed := 0, heading := 0 }
      pathA instrOk ⟨1, 1⟩ 4 0).1,
    (commitLocation (constGeo 10000 instrOk)
      { sRun with showUI := false, started := false, speed := 0, heading := 0 }
      pathA instrOk ⟨1, 1⟩ 4 0).2, rfl, rfl, rfl, rfl, rfl, by decide⟩

/-- C6 (amended): with sound enabled the near announcement uses the
threshold `lastAnnounceDistance = 10 + 2*round(estimatedAvgSpeed/5)*5` and
is spoken on a committed fix exactly when `distanceToTurn` is at most the
threshold while the previously committed distance-to-turn exceeded it or
the instruction index changed; at `avgSpeed = 25` the threshold is 60 (not
20), and the distance-to-turn sequence `[30, 18]` triggers exactly one
announcement, at the first fix. -/
theorem near_announcement_edge_and_example :
    (∀ (geo : GeoMethods) (s : TNState) (path : Path) (instr : InstrResult)
        (c : Coordinate) (sp hd : ℚ),
      (Effect.speak (path.instructions.getD instr.index.toNat ⟨0, "", ""⟩).text
          ∈ (commitLocation geo s path instr c sp hd).2
        ↔ (s.settings.soundEnabled = true
            ∧ instr.distanceToTurn
                ≤ lastAnnounceDist (geo.getCurrentDetails path c).estimatedAvgSpeed
            ∧ (jsgt (s.instruction.map fun i => i.distanceToTurn)
                  (lastAnnounceDist (geo.getCurrentDetails path c).estimatedAvgSpeed) = true
               ∨ jsneq instr.index (s.instruction.map fun i => i.index) = true))))
    ∧ lastAnnounceDist 25 = 60
    ∧ (∃ s1 s2,
        reduce geoAnnounce sAnnounce (Action.locationUpdate ⟨1, 1⟩ 4 0)
          = .ok (s1, [Effect.speak "turn right"])
        ∧ reduce geoAnnounce s1 (Action.locationUpdate ⟨2, 2⟩ 4 0) = .ok (s2, [])) := by
  refine ⟨?_, by decide, ?_⟩
  · intro geo s path instr c sp hd
    constructor
    · intro hmem
      simp only [commitLocation, List.mem_append] at hmem
      rcases hmem with h | h
      · split at h
        · rename_i hc
          simp only [Bool.and_eq_true, Bool.or_eq_true, decide_eq_true_eq] at hc
          exact ⟨hc.1.1, hc.1.2, hc.2⟩
        · simp at h
      · exfalso
        split at h
        · simp only [List.mem_singleton] at h
          exact ne_append_space_self _ _ (Effect.speak.inj h)
        · simp at h
    · rintro ⟨hs, hdist, hedge⟩
      have hcond : (s.settings.soundEnabled
          && decide (instr.distanceToTurn
              ≤ lastAnnounceDist (geo.getCurrentDetails path c).estimatedAvgSpeed)
          && (jsgt (s.instruction.map fun i => i.distanceToTurn)
                (lastAnnounceDist (geo.getCurrentDetails path c).estimatedAvgSpeed)
              || jsneq instr.index (s.instruction.map fun i => i.index))) = true := by
        rcases hedge with h | h <;> simp [hs, hdist, h]
      simp only [commitLocation, List.mem_append]
      left
      simp [hcond]
  · refine ⟨(commitLocation geoAnnounce sAnnounce pathA instr30 ⟨1, 1⟩ 4 0).1,
      (commitLocation geoAnnounce
        (commitLocation geoAnnounce sAnnounce pathA instr30 ⟨1, 1⟩ 4 0).1
        pathA instr18 ⟨2, 2⟩ 4 0).1, ?_, ?_⟩ <;> decide

/-- Counterexample for C6 as stated: at `avgSpeed = 25` the code's
threshold is 60 rather than 20, and on the distance-to-turn sequence
`[30, 18]` the single announcement happens at the first fix — the second
fix produces no announcement. -/
theorem near_announcement_counterexample :
    lastAnnounceDist 25 ≠ 20
    ∧ ∃ s1, reduce geoAnnounce sAnnounce (Action.locationUpdate ⟨1, 1⟩ 4 0)
        = .ok (s1, [Effect.speak "turn right"])
      ∧ ∃ s2, reduce geoAnnounce s1 (Action.locationUpdate ⟨2, 2⟩ 4 0)
          = .ok (s2, ([] : List Effect)) := by
  refine ⟨by decide, (commitLocation geoAnnounce sAnnounce pathA instr30 ⟨1, 1⟩ 4 0).1, by decide,
    (commitLocation geoAnnounce
      (commitLocation geoAnnounce sAnnounce pathA instr30 ⟨1, 1⟩ 4 0).1
      pathA instr18 ⟨2, 2⟩ 4 0).1, by decide⟩

/-- Witness for C10 at a concrete state: with `showUI` true the reduction
throws, with the initial state it commits the selected path. -/
theorem setSelectedPath_guard_and_reset_witness :
    reduce (constGeo 60 instrOk) { initialState with showUI := true } (Action.setSelectedPath pathA)
        = .error "Changing path while turn navigation should not happen"
    ∧ ∃ s', reduce (constGeo 60 instrOk) initialState (Action.setSelectedPath pathA) = .ok (s', [])
        ∧ s'.activePath = some pathA := by
  refine ⟨(setSelectedPath_guard_and_reset (constGeo 60 instrOk)
    { initialState with showUI := true } pathA).1 rfl, ?_⟩
  obtain ⟨s', h1, _, h3, _⟩ :=
    (setSelectedPath_guard_and_reset (constGeo 60 instrOk) initialState pathA).2 rfl
  exact ⟨s', h1, h3⟩

end TurnNav
